import Mathlib

/-!
Verification of the Spotify MCP server (`src/server/server.py`).

The file shallowly embeds the credential store (`get_access_token`), the
authenticated request executors (`spotify_get`, `spotify_post`,
`spotify_put`), and the per-tool request construction / response
normalization logic (`search_spotify`, `get_playlist_items`,
`add_to_playlist`, `start_playback`).  Network responses are modelled as
explicit values; Python dictionaries and JSON documents are modelled by an
inductive `Json` type; Python exceptions are modelled by `Except String`.
-/

namespace SpotifyMCP

/-- A JSON value / Python object, as handled by the server: `null` models
Python `None`, `obj` models a dict with insertion-ordered keys. -/
inductive Json where
  | null : Json
  | bool : Bool → Json
  | num : Int → Json
  | str : String → Json
  | arr : List Json → Json
  | obj : List (String × Json) → Json
  deriving Repr

/-- First-match key lookup in an association list, as Python dict lookup
(keys in the modelled payloads are unique, so first match is the match). -/
def lookupKey : List (String × Json) → String → Option Json
  | [], _ => none
  | (k, v) :: rest, key => if k = key then some v else lookupKey rest key

/-- Python `d[k]`: succeeds only on a dict that has the key; a missing key
raises `KeyError`, subscripting a non-dict raises `TypeError`. -/
def getItem (j : Json) (k : String) : Except String Json :=
  match j with
  | .obj kvs =>
    match lookupKey kvs k with
    | some v => .ok v
    | none => .error ("KeyError: " ++ k)
  | _ => .error "TypeError: not subscriptable"

/-- Python `d.get(k)`: `None` when the key is absent; calling `.get` on a
non-dict raises `AttributeError`. -/
def pyGet (j : Json) (k : String) : Except String Json :=
  match j with
  | .obj kvs => .ok ((lookupKey kvs k).getD .null)
  | _ => .error "AttributeError: get"

/-- Python truthiness of a JSON value (`None`, `0`, `""`, `[]`, the empty
dict are falsy; everything else is truthy). -/
def truthy : Json → Bool
  | .null => false
  | .bool b => b
  | .num n => n ≠ 0
  | .str s => s ≠ ""
  | .arr l => !l.isEmpty
  | .obj kvs => !kvs.isEmpty

/-- Python iteration `for x in v`: lists yield their elements, strings yield
their one-character substrings, dicts yield their keys; other values raise
`TypeError`. -/
def iterElems : Json → Except String (List Json)
  | .arr l => .ok l
  | .str s => .ok (s.data.map fun c => Json.str (String.mk [c]))
  | .obj kvs => .ok (kvs.map fun kv => Json.str kv.1)
  | _ => .error "TypeError: not iterable"

/-- An upstream HTTP response as the wrappers observe it: the status code,
whether `resp.content` is non-empty (its truthiness), and the outcome of
`resp.json()` (parsing can fail, e.g. on an empty body). -/
structure HttpResponse where
  status : Nat
  hasContent : Bool
  jsonBody : Except String Json
  deriving Repr

/-- httpx success range: `200 ≤ status < 300`. -/
def is2xx (status : Nat) : Bool :=
  decide (200 ≤ status) && decide (status < 300)

/-- httpx `resp.raise_for_status()`: raises `HTTPStatusError` exactly on a
non-2xx status, carrying the status code. -/
def raiseForStatus (r : HttpResponse) : Except String Unit :=
  if is2xx r.status then .ok () else .error ("HTTPStatusError: " ++ toString r.status)

/-! ## Credential store (`get_access_token`, server.py lines 21-46)

Module state is the pair of globals `access_token` (initially `None`) and
`expires_at` (initially `0`); `time.time()` is the explicit `now` argument
and the token endpoint's response is the explicit `resp` argument. -/

/-- The two module-level globals of server.py: `access_token = None` and
`expires_at = 0` at process start. -/
structure AuthState where
  access_token : Json
  expires_at : Int
  deriving Repr

/-- The guard of server.py line 26: `if access_token and time.time() < expires_at`. -/
def cacheValid (st : AuthState) (now : Int) : Bool :=
  truthy st.access_token && decide (now < st.expires_at)

/-- `get_access_token()` (server.py lines 21-46): return the cached token if
the guard holds; otherwise POST to the token endpoint (`resp`), call
`raise_for_status`, parse the body, and execute the two assignments
`access_token = data["access_token"]` then
`expires_at = time.time() + data["expires_in"]` in that order (so a body
lacking `expires_in` leaves the state partially updated).  Returns the final
global state together with the returned token or the raised exception. -/
def get_access_token (st : AuthState) (now : Int) (resp : HttpResponse) :
    AuthState × Except String Json :=
  if cacheValid st now then
    (st, .ok st.access_token)
  else
    match raiseForStatus resp with
    | .error e => (st, .error e)
    | .ok () =>
      match resp.jsonBody with
      | .error e => (st, .error e)
      | .ok data =>
        match getItem data "access_token" with
        | .error e => (st, .error e)
        | .ok tok =>
          match getItem data "expires_in" with
          | .error e => ({ st with access_token := tok }, .error e)
          | .ok (.num n) => ({ access_token := tok, expires_at := now + n }, .ok tok)
          | .ok _ => ({ st with access_token := tok }, .error "TypeError: expires_in")

/-! ## Authenticated request executors (server.py lines 72-122)

Credential acquisition and request construction are common to the three
wrappers; the verb-specific logic is the classification of the upstream
response, which is what these definitions embed (the response is the
explicit argument). -/

/-- The synthetic success marker `{"status": "ok"}` of `spotify_put`. -/
def okMarker : Json := .obj [("status", .str "ok")]

/-- Response classification of `spotify_get` (server.py lines 83-84):
`raise_for_status()` then `resp.json()`. -/
def spotify_get (r : HttpResponse) : Except String Json :=
  match raiseForStatus r with
  | .error e => .error e
  | .ok () => r.jsonBody

/-- Response classification of `spotify_post` (server.py lines 100-101):
`raise_for_status()` then `resp.json()`. -/
def spotify_post (r : HttpResponse) : Except String Json :=
  match raiseForStatus r with
  | .error e => .error e
  | .ok () => r.jsonBody

/-- Response classification of `spotify_put` (server.py lines 118-122):
status 204, status 200 or an empty `resp.content` returns the `ok` marker;
otherwise `raise_for_status()` then `resp.json()`. -/
def spotify_put (r : HttpResponse) : Except String Json :=
  if r.status == 204 || r.status == 200 || !r.hasContent then
    .ok okMarker
  else
    match raiseForStatus r with
    | .error e => .error e
    | .ok () => r.jsonBody

/-! ## Tool layer: search normalization (`search_spotify`, server.py lines 143-164) -/

/-- The `try: items = raw[container]["items"] except: items = []` block of
server.py lines 146-149, with `container = f"\x7bsearch_type\x7ds"`. -/
def searchItemsLookup (search_type : String) (raw : Json) : Except String Json :=
  match getItem raw (search_type ++ "s") with
  | .error e => .error e
  | .ok container => getItem container "items"

/-- Outcome of the `try`/`except`: the looked-up value, or `[]` on any
exception. -/
def searchItems (search_type : String) (raw : Json) : Json :=
  match searchItemsLookup search_type raw with
  | .ok v => v
  | .error _ => .arr []

/-- The artists entry of the cleaned search item (server.py line 160):
`[a.get("name") for a in item.get("artists", [])] if item.get("artists") else None`,
applied to the looked-up `item.get("artists")` value. -/
def cleanArtists (v : Json) : Except String Json :=
  if truthy v then
    match iterElems v with
    | .error e => .error e
    | .ok elems =>
      match elems.mapM (fun a => pyGet a "name") with
      | .error e => .error e
      | .ok names => .ok (.arr names)
  else .ok .null

/-- The album entry of the cleaned search item (server.py line 161):
`item.get("album", \x7b\x7d).get("name") if item.get("album") else None`,
applied to the looked-up `item.get("album")` value. -/
def cleanAlbum (v : Json) : Except String Json :=
  if truthy v then pyGet v "name" else .ok .null

/-- One iteration of the cleaning loop of server.py lines 154-162, building
the dict literal in its evaluation order. -/
def cleanSearchItem (item : Json) : Except String Json := do
  let idv ← pyGet item "id"
  let namev ← pyGet item "name"
  let uriv ← pyGet item "uri"
  let artistsv ← pyGet item "artists"
  let artists ← cleanArtists artistsv
  let albumv ← pyGet item "album"
  let album ← cleanAlbum albumv
  pure (Json.obj [("id", idv), ("name", namev), ("uri", uriv),
                  ("artists", artists), ("album", album)])

/-- The normalization performed by `search_spotify` on the raw `/search`
payload (server.py lines 145-164): container lookup with empty-list
fallback, the cleaning loop, and the final
`\x7b"type": search_type, "items": cleaned\x7d` result. -/
def searchNormalize (search_type : String) (raw : Json) : Except String Json :=
  match iterElems (searchItems search_type raw) with
  | .error e => .error e
  | .ok items =>
    match items.mapM cleanSearchItem with
    | .error e => .error e
    | .ok cleaned =>
      .ok (.obj [("type", .str search_type), ("items", .arr cleaned)])

/-! ## Tool layer: playlist items (`get_playlist_items`, server.py lines 289-309) -/

/-- One iteration of the cleaning loop of server.py lines 297-307: every
field is read with bracket access (`entry["track"]`, `track["id"]`, ...,
`track["album"]["name"]`), so a missing key raises `KeyError`. -/
def cleanPlaylistEntry (entry : Json) : Except String Json := do
  let track ← getItem entry "track"
  let idv ← getItem track "id"
  let namev ← getItem track "name"
  let uriv ← getItem track "uri"
  let artistsv ← getItem track "artists"
  let artistElems ← iterElems artistsv
  let artists ← artistElems.mapM (fun a => getItem a "name")
  let albumv ← getItem track "album"
  let album ← getItem albumv "name"
  let explicitv ← getItem track "explicit"
  pure (Json.obj [("id", idv), ("name", namev), ("uri", uriv),
                  ("artists", .arr artists), ("album", album),
                  ("explicit", explicitv)])

/-- The normalization performed by `get_playlist_items` on the raw playlist
payload (server.py lines 292-309): `raw["items"]`, `raw["total"]`, the
cleaning loop, and the paging envelope. -/
def playlistItemsNormalize (limit offset : Int) (raw : Json) : Except String Json := do
  let items ← getItem raw "items"
  let total ← getItem raw "total"
  let entries ← iterElems items
  let cleaned ← entries.mapM cleanPlaylistEntry
  pure (Json.obj [("total_tracks", total), ("returned", .num cleaned.length),
                  ("limit", .num limit), ("offset", .num offset),
                  ("items", .arr cleaned)])

/-! ## Tool layer: request construction (`add_to_playlist` and
`start_playback`, server.py lines 328-341 and 382-397) -/

/-- An upstream request as a tool constructs it: verb, path and the JSON
body handed to the executor. -/
structure UpstreamRequest where
  verb : String
  path : String
  body : Json
  deriving Repr

/-- The ASCII whitespace characters Python `str.strip()` removes. -/
def pyIsSpace (c : Char) : Bool :=
  c = ' ' || c = '\t' || c = '\n' || c = '\r' || c = '\x0b' || c = '\x0c'

/-- Python `s.strip()`: drop leading and trailing whitespace. -/
def pyStrip (s : String) : String :=
  String.mk (((s.data.dropWhile pyIsSpace).reverse.dropWhile pyIsSpace).reverse)

/-- Python `s.split(sep)` on a one-character separator over the character
list: splits at every separator and keeps empty pieces, so
`"".split(",") = [""]` and `"a,,b".split(",") = ["a", "", "b"]`. -/
def splitCharList (sep : Char) : List Char → List (List Char)
  | [] => [[]]
  | c :: rest =>
    match splitCharList sep rest with
    | [] => if c = sep then [[], []] else [[c]]
    | g :: gs => if c = sep then [] :: g :: gs else (c :: g) :: gs

/-- Python `s.split(sep)` for a one-character separator string. -/
def pySplit (s : String) (sep : Char) : List String :=
  (splitCharList sep s.data).map String.mk

/-- `[uri.strip() for uri in track_uri.split(',')]` (server.py line 340). -/
def splitUris (track_uri : String) : List String :=
  (pySplit track_uri ',').map pyStrip

/-- The request constructed by `add_to_playlist` (server.py lines 340-341):
a POST to `/playlists/\x7bplaylist_id\x7d/tracks` whose body is
`\x7b"uris": uri_list\x7d` with `uri_list` the split-and-stripped input. -/
def add_to_playlist (playlist_id track_uri : String) : UpstreamRequest :=
  { verb := "POST"
    path := "/playlists/" ++ playlist_id ++ "/tracks"
    body := .obj [("uris", .arr ((splitUris track_uri).map Json.str))] }

/-- `track_uris` is an optional string parameter (`None` by default). -/
def uriListOfOption (track_uris : Option String) : Json :=
  match track_uris with
  | none => .null
  | some s => if s = "" then .null else .arr ((splitUris s).map Json.str)

/-- The request constructed by `start_playback` (server.py lines 394-397):
`uris = [u.strip() for u in track_uris.split(",")] if track_uris else None`
(a `None` or empty `track_uris` is falsy) and a PUT to `/me/player/play`
with the three-field body. -/
def start_playback (context_uri : Option String) (track_uris : Option String)
    (position_ms : Option Int) : UpstreamRequest :=
  { verb := "PUT"
    path := "/me/player/play"
    body := .obj [("context_uri", (context_uri.map Json.str).getD .null),
                  ("uris", uriListOfOption track_uris),
                  ("position_ms", (position_ms.map Json.num).getD .null)] }

/-! ## Concurrency model for `get_access_token`

`get_access_token` is an async coroutine whose only suspension points lie
between the cache check (line 26) and the store of the exchange result
(lines 43-44): the `await client.post(...)` and the async context manager.
Each concurrent call is therefore a task with two atomic segments:

* `check`: evaluate `cacheValid`; on a hit return the cached token, on a
  miss issue the POST to the token endpoint (one upstream exchange) and
  suspend;
* `store`: resume after the exchange, run `raise_for_status`/parse/store
  and return the token.

The model below runs two such tasks over the shared globals under an
arbitrary scheduler, starting from the process-start state
(`access_token = None`, `expires_at = 0`, i.e. an empty/expired cache).
Each task's exchange succeeds and yields its own token (`"t0"` resp.
`"t1"`) with `expires_in = 3600`; `time.time()` is frozen at `0`. -/

/-- Program counter of one in-flight `get_access_token` call: `0` before
the cache check, `1` suspended awaiting its token exchange, `2` returned. -/
structure RefreshTask where
  pc : Nat
  result : Json
  deriving Repr

/-- The shared globals plus the two tasks and the count of refresh-token
exchanges issued to the upstream token endpoint. -/
structure ConcurrentSys where
  auth : AuthState
  t0 : RefreshTask
  t1 : RefreshTask
  exchanges : Nat
  deriving Repr

/-- The token returned by task `i`'s own exchange. -/
def exchangeToken (i : Bool) : Json := .str (if i then "t1" else "t0")

/-- One atomic segment of a task holding the exchange token `tok`, over the
shared globals `auth` and exchange count `ex`: the `check` segment replays
the guard of server.py line 26 (a miss issues the POST, counting one
exchange, and suspends), the `store` segment replays the assignments of
lines 43-44 with the task's own successful exchange result. -/
def stepOne (tok : Json) (auth : AuthState) (tk : RefreshTask) (ex : Nat) :
    AuthState × RefreshTask × Nat :=
  match tk.pc with
  | 0 =>
    if cacheValid auth 0 then
      (auth, { pc := 2, result := auth.access_token }, ex)
    else
      (auth, { pc := 1, result := .null }, ex + 1)
  | 1 =>
    ({ access_token := tok, expires_at := 0 + 3600 },
     { pc := 2, result := tok }, ex)
  | _ => (auth, tk, ex)

/-- Run one atomic segment of the scheduler-chosen task `i`. -/
def stepTask (s : ConcurrentSys) (i : Bool) : ConcurrentSys :=
  if i then
    let r := stepOne (exchangeToken true) s.auth s.t1 s.exchanges
    { auth := r.1, t0 := s.t0, t1 := r.2.1, exchanges := r.2.2 }
  else
    let r := stepOne (exchangeToken false) s.auth s.t0 s.exchanges
    { auth := r.1, t0 := r.2.1, t1 := s.t1, exchanges := r.2.2 }

/-- Run the two-task system under a schedule (a list of task choices). -/
def runSched (sched : List Bool) : ConcurrentSys :=
  sched.foldl stepTask
    { auth := { access_token := .null, expires_at := 0 }
      t0 := { pc := 0, result := .null }
      t1 := { pc := 0, result := .null }
      exchanges := 0 }

/-! ## Theorems -/

/-- C3: the PUT executor's empty-body branch precedes `raise_for_status`,
so the upstream response with status 404 and an empty body — a non-2xx
status — makes `spotify_put` return the success marker `ok` instead of
failing with the status error the claim requires. -/
theorem spotify_put_404_empty_body_returns_ok :
    spotify_put { status := 404, hasContent := false,
                  jsonBody := .error "JSONDecodeError" } = .ok okMarker ∧
    is2xx 404 = false := by
  exact ⟨rfl, rfl⟩

/-- C4: every PUT response with status 204, status 200, or a 2xx status and
an empty body yields the synthetic `ok` marker and never an error, while
the GET and POST executors never produce the marker on an empty body (they
fail on the status or on JSON parsing instead). -/
theorem spotify_put_empty_body_success_rule (r : HttpResponse) :
    (r.status = 204 ∨ r.status = 200 ∨ (r.hasContent = false ∧ is2xx r.status = true) →
      spotify_put r = .ok okMarker) ∧
    (r.hasContent = false → ∀ e, r.jsonBody = .error e →
      (∃ e1, spotify_get r = .error e1) ∧ (∃ e2, spotify_post r = .error e2)) := by
  constructor
  · intro h
    unfold spotify_put
    rcases h with h | h | ⟨h, _⟩ <;> simp [h]
  · intro hc e he
    constructor
    · by_cases h2 : is2xx r.status
      · exact ⟨e, by simp [spotify_get, raiseForStatus, h2, he]⟩
      · exact ⟨"HTTPStatusError: " ++ toString r.status,
          by simp [spotify_get, raiseForStatus, h2]⟩
    · by_cases h2 : is2xx r.status
      · exact ⟨e, by simp [spotify_post, raiseForStatus, h2, he]⟩
      · exact ⟨"HTTPStatusError: " ++ toString r.status,
          by simp [spotify_post, raiseForStatus, h2]⟩

/-- C4 witness: the concrete 204 empty-body response yields the `ok` marker
from the PUT executor and errors from the GET and POST executors. -/
theorem spotify_put_empty_body_success_rule_witness :
    (spotify_put { status := 204, hasContent := false,
                   jsonBody := .error "JSONDecodeError" } = .ok okMarker) ∧
    (∃ e1, spotify_get { status := 204, hasContent := false,
                         jsonBody := .error "JSONDecodeError" } = .error e1) ∧
    (∃ e2, spotify_post { status := 204, hasContent := false,
                          jsonBody := .error "JSONDecodeError" } = .error e2) :=
  ⟨(spotify_put_empty_body_success_rule _).1 (Or.inl rfl),
   (spotify_put_empty_body_success_rule
      { status := 204, hasContent := false,
        jsonBody := .error "JSONDecodeError" }).2 rfl _ rfl⟩

/-- C5: when the cache misses and the token endpoint answers with a non-2xx
status, `get_access_token` raises the status error and leaves both globals
(`access_token`, `expires_at`) exactly as they were: no failure result is
cached. -/
theorem refresh_failure_preserves_state (st : AuthState) (now : Int)
    (r : HttpResponse) (hmiss : cacheValid st now = false)
    (hstatus : is2xx r.status = false) :
    get_access_token st now r
      = (st, .error ("HTTPStatusError: " ++ toString r.status)) := by
  unfold get_access_token raiseForStatus
  simp [hmiss, hstatus]

/-- C5 witness: a failed exchange (status 400) from the process-start state
leaves the state unchanged and returns the status error. -/
theorem refresh_failure_preserves_state_witness :
    get_access_token { access_token := .null, expires_at := 0 } 0
        { status := 400, hasContent := true, jsonBody := .ok .null }
      = ({ access_token := .null, expires_at := 0 },
         .error ("HTTPStatusError: " ++ toString 400)) :=
  refresh_failure_preserves_state _ _ _ rfl rfl

/-- C6: normalizing the documented `/search` payload for
`search_type = "track"` selects the `tracks` container and returns the
documented record with the artist names flattened to a list of strings and
the album collapsed to its name. -/
theorem search_track_normalize_example :
    searchNormalize "track"
      (.obj [("tracks", .obj [("items", .arr
        [.obj [("id", .str "1"), ("name", .str "Song"),
               ("uri", .str "spotify:track:1"),
               ("artists", .arr [.obj [("name", .str "A")]]),
               ("album", .obj [("name", .str "Alb")])]])])])
      = .ok (.obj [("type", .str "track"), ("items", .arr
          [.obj [("id", .str "1"), ("name", .str "Song"),
                 ("uri", .str "spotify:track:1"),
                 ("artists", .arr [.str "A"]),
                 ("album", .str "Alb")]])]) := by
  rfl

/-- C7: whenever the lookup `raw[container]["items"]` fails (absent or
non-dict container, absent `items` member), the `except` branch makes the
normalization return `type` with an empty `items` list — never an
exception. -/
theorem search_normalize_missing_container_empty (search_type : String)
    (raw : Json) (e : String)
    (h : searchItemsLookup search_type raw = .error e) :
    searchNormalize search_type raw
      = .ok (.obj [("type", .str search_type), ("items", .arr [])]) := by
  unfold searchNormalize searchItems
  rw [h]
  rfl

/-- C7 witness: a raw payload with no `tracks` container normalizes to the
empty result. -/
theorem search_normalize_missing_container_empty_witness :
    searchNormalize "track" (.obj [("albums", .arr [])])
      = .ok (.obj [("type", .str "track"), ("items", .arr [])]) :=
  search_normalize_missing_container_empty "track" (.obj [("albums", .arr [])])
    "KeyError: tracks" rfl

/-- C8: `add_to_playlist` itself splits the comma-delimited `track_uri`
into the whitespace-stripped list of URIs and places exactly that list in
the request body's `uris` field; on `"uri1, uri2"` the split yields
`["uri1", "uri2"]`. -/
theorem add_to_playlist_splits_uris :
    (∀ playlist_id track_uri,
      getItem (add_to_playlist playlist_id track_uri).body "uris"
        = .ok (.arr ((splitUris track_uri).map Json.str))) ∧
    splitUris "uri1, uri2" = ["uri1", "uri2"] := by
  exact ⟨fun _ _ => rfl, rfl⟩

/-- C10: in the body built by `start_playback`, the `uris` field is `null`
when `track_uris` is `None` or the empty string (letting upstream resume
the current context), and the comma-split, stripped list of URIs for a
non-empty string. -/
theorem start_playback_uris_field :
    (∀ ctx pos, getItem (start_playback ctx none pos).body "uris" = .ok .null) ∧
    (∀ ctx pos, getItem (start_playback ctx (some "") pos).body "uris" = .ok .null) ∧
    (∀ ctx pos s, getItem (start_playback ctx (some s) pos).body "uris"
      = .ok (if s = "" then .null
             else .arr ((splitUris s).map Json.str))) := by
  refine ⟨fun ctx pos => ?_, fun ctx pos => ?_, fun ctx pos s => ?_⟩ <;> rfl

/-- The credential-store contract exactly as the spec states it, for a
safety margin `margin`: a cached truthy credential with
`now < expires_at - margin` is returned unchanged without consulting the
token endpoint, and in every other case (including the window within the
margin before literal expiry) a successful exchange is performed, its
result stored, and the new token returned. -/
def storeClaimWithMargin (margin : Int) : Prop :=
  ∀ (st : AuthState) (now : Int) (r : HttpResponse),
    (truthy st.access_token = true ∧ now < st.expires_at - margin →
      get_access_token st now r = (st, .ok st.access_token)) ∧
    (¬ (truthy st.access_token = true ∧ now < st.expires_at - margin) →
      ∀ data tok n, is2xx r.status = true → r.jsonBody = .ok data →
        getItem data "access_token" = .ok tok →
        getItem data "expires_in" = .ok (.num n) →
        get_access_token st now r
          = ({ access_token := tok, expires_at := now + n }, .ok tok))

/-- C1 counterexample: with margin 1 the claim fails.  At
`expires_at = 100`, `now = 99` the cached token lies inside the safety
window, so the claim demands a refresh storing the fresh token `"new"`;
the code's guard is the exact-instant `now < expires_at`, so it returns the
stale cached token `"tok"` and performs no exchange. -/
theorem credential_margin_claim_false : ¬ storeClaimWithMargin 1 := by
  intro h
  have h2 := (h { access_token := .str "tok", expires_at := 100 } 99
      { status := 200, hasContent := true,
        jsonBody := .ok (.obj [("access_token", .str "new"),
                               ("expires_in", .num 3600)]) }).2
  have h3 := h2 (by decide)
    (.obj [("access_token", .str "new"), ("expires_in", .num 3600)])
    (.str "new") 3600 rfl rfl rfl rfl
  have h4 : get_access_token { access_token := .str "tok", expires_at := 100 } 99
      { status := 200, hasContent := true,
        jsonBody := .ok (.obj [("access_token", .str "new"),
                               ("expires_in", .num 3600)]) }
      = ({ access_token := .str "tok", expires_at := 100 }, .ok (.str "tok")) := rfl
  rw [h4] at h3
  have h5 := congrArg (fun p => p.1.expires_at) h3
  simp at h5

/-- C1 amended: the code implements the contract with margin zero — the
cached token is returned exactly when it is truthy and `now` is strictly
before the literal `expires_at` (no safety margin); in every other case a
successful exchange is performed, its token stored with expiry
`now + expires_in`, and that token returned. -/
theorem get_access_token_exact_expiry_spec (st : AuthState) (now : Int)
    (r : HttpResponse) :
    (cacheValid st now = true →
      get_access_token st now r = (st, .ok st.access_token)) ∧
    (cacheValid st now = false →
      ∀ data tok n, is2xx r.status = true → r.jsonBody = .ok data →
        getItem data "access_token" = .ok tok →
        getItem data "expires_in" = .ok (.num n) →
        get_access_token st now r
          = ({ access_token := tok, expires_at := now + n }, .ok tok)) := by
  constructor
  · intro hv
    unfold get_access_token
    simp [hv]
  · intro hv data tok n hs hb ht he
    unfold get_access_token raiseForStatus
    simp [hv, hs, hb, ht, he]

/-- C1 amended witness: a valid cached token (`now = 50 < 100`) is returned
unchanged, and from the process-start state a successful exchange stores
token `"new"` with expiry `0 + 3600` and returns it. -/
theorem get_access_token_exact_expiry_spec_witness :
    (get_access_token { access_token := .str "tok", expires_at := 100 } 50
        { status := 200, hasContent := true, jsonBody := .ok .null }
      = ({ access_token := .str "tok", expires_at := 100 }, .ok (.str "tok"))) ∧
    (get_access_token { access_token := .null, expires_at := 0 } 0
        { status := 200, hasContent := true,
          jsonBody := .ok (.obj [("access_token", .str "new"),
                                 ("expires_in", .num 3600)]) }
      = ({ access_token := .str "new", expires_at := 0 + 3600 },
         .ok (.str "new"))) :=
  ⟨(get_access_token_exact_expiry_spec
      { access_token := .str "tok", expires_at := 100 } 50
      { status := 200, hasContent := true, jsonBody := .ok .null }).1 rfl,
   (get_access_token_exact_expiry_spec
      { access_token := .null, expires_at := 0 } 0
      { status := 200, hasContent := true,
        jsonBody := .ok (.obj [("access_token", .str "new"),
                               ("expires_in", .num 3600)]) }).2 rfl
     (.obj [("access_token", .str "new"), ("expires_in", .num 3600)])
     (.str "new") 3600 rfl rfl rfl rfl⟩

/-- Invariant of the two-task refresh system: the exchange count never
exceeds the number of tasks past their cache check (`min pc 1` counts a
task once it has progressed), and as soon as any task has progressed or
the shared cache has become truthy, at least one exchange has been
issued. -/
def sysInv (s : ConcurrentSys) : Prop :=
  s.exchanges ≤ min s.t0.pc 1 + min s.t1.pc 1 ∧
  (1 ≤ s.t0.pc ∨ 1 ≤ s.t1.pc ∨ truthy s.auth.access_token = true →
    1 ≤ s.exchanges)

/-- A valid cache is in particular a truthy cached token. -/
theorem cacheValid_truthy (a : AuthState) (now : Int)
    (hc : cacheValid a now = true) : truthy a.access_token = true := by
  unfold cacheValid at hc
  exact (Bool.and_eq_true _ _ ▸ hc).1

/-- One scheduler step preserves the invariant. -/
theorem sysInv_step (s : ConcurrentSys) (i : Bool) (h : sysInv s) :
    sysInv (stepTask s i) := by
  obtain ⟨hub, hlb⟩ := h
  cases i
  · rcases h0 : s.t0.pc with _ | _ | n
    · by_cases hcv : cacheValid s.auth 0 = true
      · have h1 := cacheValid_truthy s.auth 0 hcv
        have h2 := hlb (Or.inr (Or.inr h1))
        simp [sysInv, stepTask, stepOne, h0, hcv] at hub ⊢
        omega
      · rw [Bool.not_eq_true] at hcv
        simp [sysInv, stepTask, stepOne, h0, hcv] at hub ⊢
        omega
    · have h2 := hlb (Or.inl (by omega))
      simp [sysInv, stepTask, stepOne, h0] at hub ⊢
      omega
    · have h2 := hlb (Or.inl (by omega))
      simp [sysInv, stepTask, stepOne, h0] at hub ⊢
      omega
  · rcases h0 : s.t1.pc with _ | _ | n
    · by_cases hcv : cacheValid s.auth 0 = true
      · have h1 := cacheValid_truthy s.auth 0 hcv
        have h2 := hlb (Or.inr (Or.inr h1))
        simp [sysInv, stepTask, stepOne, h0, hcv] at hub ⊢
        omega
      · rw [Bool.not_eq_true] at hcv
        simp [sysInv, stepTask, stepOne, h0, hcv] at hub ⊢
        omega
    · have h2 := hlb (Or.inr (Or.inl (by omega)))
      simp [sysInv, stepTask, stepOne, h0] at hub ⊢
      omega
    · have h2 := hlb (Or.inr (Or.inl (by omega)))
      simp [sysInv, stepTask, stepOne, h0] at hub ⊢
      omega

/-- The invariant holds after any schedule. -/
theorem runSched_inv (sched : List Bool) : sysInv (runSched sched) := by
  have hgen : ∀ (l : List Bool) (s : ConcurrentSys),
      sysInv s → sysInv (l.foldl stepTask s) := by
    intro l
    induction l with
    | nil => intro s hs; exact hs
    | cons i rest ih =>
      intro s hs
      exact ih (stepTask s i) (sysInv_step s i hs)
  apply hgen
  constructor
  · simp [runSched]
  · intro hp
    rcases hp with hp | hp | hp <;> simp [truthy] at hp

/-- C2 counterexample: the schedule in which both tasks run their cache
check before either stores (both observe the empty cache) issues two
refresh-token exchanges, and the two callers obtain distinct credentials
(`"t0"` and `"t1"`) — the claim's single collapsed exchange does not
occur. -/
theorem concurrent_refresh_single_flight_false :
    (runSched [false, true, false, true]).exchanges = 2 ∧
    (runSched [false, true, false, true]).t0.pc = 2 ∧
    (runSched [false, true, false, true]).t1.pc = 2 ∧
    (runSched [false, true, false, true]).t0.result = .str "t0" ∧
    (runSched [false, true, false, true]).t1.result = .str "t1" ∧
    Json.str "t0" ≠ Json.str "t1" := by
  refine ⟨rfl, rfl, rfl, rfl, rfl, ?_⟩
  intro h
  injection h with h2
  exact absurd h2 (by decide)

/-- C2 amended: `get_access_token` has no single-flight guarantee — under
an arbitrary interleaving of two concurrent calls on the empty cache,
between one exchange (a caller can reuse the credential the other stored)
and one exchange per caller are issued. -/
theorem concurrent_refresh_exchange_bounds (sched : List Bool)
    (h : (runSched sched).t0.pc = 2 ∧ (runSched sched).t1.pc = 2) :
    1 ≤ (runSched sched).exchanges ∧ (runSched sched).exchanges ≤ 2 := by
  obtain ⟨hub, hlb⟩ := runSched_inv sched
  constructor
  · exact hlb (Or.inl (by rw [h.1]; omega))
  · rw [h.1, h.2] at hub
    omega

/-- C2 amended witness: under the herd schedule both tasks finish and the
exchange count lies in the stated bounds (here it is exactly two). -/
theorem concurrent_refresh_exchange_bounds_witness :
    1 ≤ (runSched [false, true, false, true]).exchanges ∧
    (runSched [false, true, false, true]).exchanges ≤ 2 :=
  concurrent_refresh_exchange_bounds [false, true, false, true] ⟨rfl, rfl⟩

/-- C9 counterexample: a playlist entry whose track record lacks the
`album` field makes `get_playlist_items`' cleaning loop raise `KeyError`
(bracket access on line 305) instead of defaulting the field to null as
the claim requires of every normalizing tool. -/
theorem playlist_entry_missing_album_raises :
    cleanPlaylistEntry (.obj [("track", .obj
        [("id", .str "1"), ("name", .str "N"), ("uri", .str "u"),
         ("artists", .arr []), ("explicit", .bool false)])])
      = .error "KeyError: album" := by
  rfl

/-- When `search_spotify`'s cleaning of a dict item succeeds, the record
carries the upstream `id`, `name` and `uri` verbatim (null when absent),
and the `artists`/`album` entries are null whenever the upstream item
lacks them. -/
theorem cleanSearchItem_ok_shape (kvs : List (String × Json)) (rec : Json)
    (h : cleanSearchItem (.obj kvs) = .ok rec) :
    ∃ A B, rec = .obj [("id", (lookupKey kvs "id").getD .null),
                       ("name", (lookupKey kvs "name").getD .null),
                       ("uri", (lookupKey kvs "uri").getD .null),
                       ("artists", A), ("album", B)] ∧
      (lookupKey kvs "artists" = none → A = .null) ∧
      (lookupKey kvs "album" = none → B = .null) := by
  simp only [cleanSearchItem, pyGet, bind, Except.bind, pure, Except.pure] at h
  cases hA : cleanArtists ((lookupKey kvs "artists").getD .null) with
  | error e => rw [hA] at h; cases h
  | ok A =>
    rw [hA] at h
    cases hB : cleanAlbum ((lookupKey kvs "album").getD .null) with
    | error e => rw [hB] at h; cases h
    | ok B =>
      rw [hB] at h
      injection h with h2
      refine ⟨A, B, h2.symm, fun hn => ?_, fun hn => ?_⟩
      · rw [hn] at hA
        have h3 : cleanArtists ((none : Option Json).getD .null) = .ok .null := rfl
        rw [h3] at hA
        injection hA with h4
        exact h4.symm
      · rw [hn] at hB
        have h3 : cleanAlbum ((none : Option Json).getD .null) = .ok .null := rfl
        rw [h3] at hB
        injection hB with h4
        exact h4.symm

/-- When `get_playlist_items`' cleaning of an entry succeeds, every
bracket-accessed field (`id`, `name`, `uri`, `artists`, `album["name"]`,
`explicit`) was present upstream and its value is carried into the
record. -/
theorem exceptBind_ok {α β : Type} {x : Except String α}
    {f : α → Except String β} {r : β} (h : x >>= f = .ok r) :
    ∃ a, x = .ok a ∧ f a = .ok r := by
  cases x with
  | error e => exact absurd h (by simp [Bind.bind, Except.bind])
  | ok a => exact ⟨a, rfl, by simpa [Bind.bind, Except.bind] using h⟩

/-- A successful bracket access on a dict is a successful key lookup. -/
theorem getItem_obj_ok (kvs : List (String × Json)) (k : String) (v : Json)
    (h : getItem (.obj kvs) k = .ok v) : lookupKey kvs k = some v := by
  simp only [getItem] at h
  cases hl : lookupKey kvs k with
  | none => rw [hl] at h; cases h
  | some w => rw [hl] at h; injection h with h2; rw [h2]

/-- When `get_playlist_items`' cleaning of an entry succeeds, every
bracket-accessed field (`id`, `name`, `uri`, `artists`, `album["name"]`,
`explicit`) was present upstream and its value is carried into the
record. -/
theorem cleanPlaylistEntry_ok_shape (tkvs : List (String × Json)) (rec : Json)
    (h : cleanPlaylistEntry (.obj [("track", .obj tkvs)]) = .ok rec) :
    ∃ idv namev uriv artistsv albumv explicitv albumName names,
      lookupKey tkvs "id" = some idv ∧
      lookupKey tkvs "name" = some namev ∧
      lookupKey tkvs "uri" = some uriv ∧
      lookupKey tkvs "artists" = some artistsv ∧
      lookupKey tkvs "album" = some albumv ∧
      lookupKey tkvs "explicit" = some explicitv ∧
      getItem albumv "name" = .ok albumName ∧
      rec = .obj [("id", idv), ("name", namev), ("uri", uriv),
                  ("artists", .arr names), ("album", albumName),
                  ("explicit", explicitv)] := by
  simp only [cleanPlaylistEntry] at h
  obtain ⟨track, htrack, h⟩ := exceptBind_ok h
  have htr : track = .obj tkvs := by
    have h0 : getItem (.obj [("track", Json.obj tkvs)]) "track"
        = .ok (.obj tkvs) := rfl
    rw [h0] at htrack
    injection htrack with h1
    exact h1.symm
  subst htr
  obtain ⟨idv, hid, h⟩ := exceptBind_ok h
  obtain ⟨namev, hname, h⟩ := exceptBind_ok h
  obtain ⟨uriv, huri, h⟩ := exceptBind_ok h
  obtain ⟨artistsv, hart, h⟩ := exceptBind_ok h
  obtain ⟨elems, hiter, h⟩ := exceptBind_ok h
  obtain ⟨names, hmap, h⟩ := exceptBind_ok h
  obtain ⟨albumv, halb, h⟩ := exceptBind_ok h
  obtain ⟨albumName, halbn, h⟩ := exceptBind_ok h
  obtain ⟨explicitv, hexp, h⟩ := exceptBind_ok h
  have h2 : rec = .obj [("id", idv), ("name", namev), ("uri", uriv),
      ("artists", .arr names), ("album", albumName),
      ("explicit", explicitv)] := by
    have := h
    simp only [pure, Except.pure] at this
    injection this with h3
    exact h3.symm
  exact ⟨idv, namev, uriv, artistsv, albumv, explicitv, albumName, names,
    getItem_obj_ok tkvs "id" idv hid,
    getItem_obj_ok tkvs "name" namev hname,
    getItem_obj_ok tkvs "uri" uriv huri,
    getItem_obj_ok tkvs "artists" artistsv hart,
    getItem_obj_ok tkvs "album" albumv halb,
    getItem_obj_ok tkvs "explicit" explicitv hexp,
    halbn, h2⟩

/-- C9 amended: the search normalizer defaults the documented fields
(`id`, `name`, `uri`, `artists`, `album`) to null when the upstream item
lacks them and carries them verbatim when present; `get_playlist_items`,
by contrast, requires every field with bracket access — its cleaning
succeeds only with all fields present (then carrying their exact values)
and fails with an exception on a track record lacking `album`, never
producing a partially defaulted record. -/
theorem normalizer_field_handling :
    (∀ kvs rec, cleanSearchItem (.obj kvs) = .ok rec →
      ∃ A B, rec = .obj [("id", (lookupKey kvs "id").getD .null),
                         ("name", (lookupKey kvs "name").getD .null),
                         ("uri", (lookupKey kvs "uri").getD .null),
                         ("artists", A), ("album", B)] ∧
        (lookupKey kvs "artists" = none → A = .null) ∧
        (lookupKey kvs "album" = none → B = .null)) ∧
    (∀ tkvs rec, cleanPlaylistEntry (.obj [("track", .obj tkvs)]) = .ok rec →
      ∃ idv namev uriv artistsv albumv explicitv albumName names,
        lookupKey tkvs "id" = some idv ∧
        lookupKey tkvs "name" = some namev ∧
        lookupKey tkvs "uri" = some uriv ∧
        lookupKey tkvs "artists" = some artistsv ∧
        lookupKey tkvs "album" = some albumv ∧
        lookupKey tkvs "explicit" = some explicitv ∧
        getItem albumv "name" = .ok albumName ∧
        rec = .obj [("id", idv), ("name", namev), ("uri", uriv),
                    ("artists", .arr names), ("album", albumName),
                    ("explicit", explicitv)]) ∧
    (∀ tkvs, lookupKey tkvs "album" = none →
      ∃ e, cleanPlaylistEntry (.obj [("track", .obj tkvs)]) = .error e) := by
  refine ⟨cleanSearchItem_ok_shape, cleanPlaylistEntry_ok_shape, ?_⟩
  intro tkvs hn
  cases hres : cleanPlaylistEntry (.obj [("track", .obj tkvs)]) with
  | error e => exact ⟨e, rfl⟩
  | ok rec =>
    obtain ⟨_, _, _, _, _, _, _, _, _, _, _, _, halb, _⟩ :=
      cleanPlaylistEntry_ok_shape tkvs rec hres
    rw [hn] at halb
    cases halb

/-- C9 amended witness: a search item carrying only `id` cleans to the
record with `id` present and every other documented field null, and a
playlist entry whose track lacks `album` makes the playlist cleaning
fail. -/
theorem normalizer_field_handling_witness :
    (∃ A B, Json.obj [("id", .str "1"), ("name", .null), ("uri", .null),
                      ("artists", .null), ("album", .null)]
        = .obj [("id", (lookupKey [("id", Json.str "1")] "id").getD .null),
                ("name", (lookupKey [("id", Json.str "1")] "name").getD .null),
                ("uri", (lookupKey [("id", Json.str "1")] "uri").getD .null),
                ("artists", A), ("album", B)] ∧
      (lookupKey [("id", Json.str "1")] "artists" = none → A = .null) ∧
      (lookupKey [("id", Json.str "1")] "album" = none → B = .null)) ∧
    (∃ e, cleanPlaylistEntry (.obj [("track", .obj [("id", .str "1")])])
        = .error e) :=
  ⟨normalizer_field_handling.1 [("id", .str "1")]
      (.obj [("id", .str "1"), ("name", .null), ("uri", .null),
             ("artists", .null), ("album", .null)]) rfl,
   normalizer_field_handling.2.2 [("id", .str "1")] rfl⟩

end SpotifyMCP
